import Mathlib

/-!
Verification of `api.py` (a client for a remote security-policy service) against its
natural-language specification.  The Python source is shallowly embedded: dictionaries
become association lists over a JSON value type, exceptions become an explicit error
type threaded through `Except`, and the `retry` decorator's control flow becomes a
fuel-indexed loop over an operation modelled as a function from invocation index to
outcome.
-/

/-- Python exceptions that appear in `api.py`, plus the built-in exceptions its code
can raise (`NameError` for an unbound variable, `ValueError` from the `tries` check,
`TypeError` from a bad keyword argument, `KeyError` from a missing dictionary key,
`NotImplementedError` from `paginate`). -/
inductive PyExc where
  | urlError (msg : String)
  | rateLimited (msg : String) (code : Int)
  | retryLimitExceeded (msg : String)
  | nameError (nm : String)
  | valueError (msg : String)
  | typeError (msg : String)
  | keyError (k : String)
  | notImplementedError
deriving DecidableEq

/-- The retryable-exception set `(URLError, RateLimitedError)` used by the `@retry`
decoration of `API._get` (line 129): models Python `isinstance(e, exc)`. -/
def isRetryableGet : PyExc → Bool
  | PyExc.urlError _ => true
  | PyExc.rateLimited _ _ => true
  | _ => false

/-- Observable events of one run of the retry loop: how many times the wrapped
operation was invoked and how many times `sleep(delay)` actually ran. -/
structure RetryTrace where
  invocations : Nat
  sleeps : Nat
deriving DecidableEq

/-- Result of one execution of the inner closure `call()` (lines 61-70 of `api.py`).
`success v` models `res = f(...)` succeeding and `call` returning `True`;
`retryFalse` models the `except exc` branch running to completion and returning
`False` (this requires `sleep(delay)` on line 69 to succeed); `raised e` models an
exception propagating out of `call`. -/
inductive CallResult (α : Type) where
  | success (v : α)
  | retryFalse
  | raised (e : PyExc)

/-- One execution of `call()` on the `n`-th invocation of the wrapped operation `op`.
On a retryable exception the source runs `sleep(delay)` (line 69); `delay` is bound
nowhere — not a parameter of `retry` (line 38), not defined in any enclosing scope,
not a module global — so evaluating it raises `NameError`, which the `except exc`
clause does not catch, and `call` never reaches `return False`.  A non-retryable
exception is not caught and propagates directly. -/
def callStep {α : Type} (retryable : PyExc → Bool) (op : Nat → Except PyExc α)
    (n : Nat) : CallResult α :=
  match op n with
  | Except.ok v => CallResult.success v
  | Except.error e =>
      if retryable e then CallResult.raised (PyExc.nameError "delay")
      else CallResult.raised e

/-- The bounded branch `for _ in range(tries): if call(): return res` with its
`else: raise RetryLimitExceeded(f'Exceeded max of ... the delay limit of ...')`
(lines 72-79).  The `else` clause's f-string interpolates the unbound `delay`, so
reaching it raises `NameError`, never `RetryLimitExceeded`.  `remaining` counts the
iterations of `range(tries)` still to run, `n` the next invocation index. -/
def boundedLoop {α : Type} (retryable : PyExc → Bool) (op : Nat → Except PyExc α) :
    Nat → Nat → RetryTrace → Except PyExc α × RetryTrace
  | 0, _, t => (Except.error (PyExc.nameError "delay"), t)
  | remaining + 1, n, t =>
      match callStep retryable op n with
      | CallResult.success v => (Except.ok v, ⟨t.invocations + 1, t.sleeps⟩)
      | CallResult.raised e => (Except.error e, ⟨t.invocations + 1, t.sleeps⟩)
      | CallResult.retryFalse =>
          boundedLoop retryable op remaining (n + 1) ⟨t.invocations + 1, t.sleeps + 1⟩

/-- The unbounded branch `while not call(): pass else: return res` (lines 80-84),
taken when `tries == 0`.  `fuel` bounds the number of loop iterations we unfold;
`none` models the loop still running after `fuel` iterations. -/
def unboundedLoop {α : Type} (retryable : PyExc → Bool) (op : Nat → Except PyExc α) :
    Nat → Nat → RetryTrace → Option (Except PyExc α × RetryTrace)
  | 0, _, _ => none
  | fuel + 1, n, t =>
      match callStep retryable op n with
      | CallResult.success v => some (Except.ok v, ⟨t.invocations + 1, t.sleeps⟩)
      | CallResult.raised e => some (Except.error e, ⟨t.invocations + 1, t.sleeps⟩)
      | CallResult.retryFalse =>
          unboundedLoop retryable op fuel (n + 1) ⟨t.invocations + 1, t.sleeps + 1⟩

/-- Executing `new_f` (lines 58-84): `if tries > 0` take the bounded loop, else the
unbounded one.  The operation `op` maps the invocation index to that invocation's
outcome, so "fails on the first k invocations, then succeeds" is expressible. -/
def retryExecute {α : Type} (retryable : PyExc → Bool) (tries : Nat)
    (op : Nat → Except PyExc α) (fuel : Nat) : Option (Except PyExc α × RetryTrace) :=
  if 0 < tries then some (boundedLoop retryable op tries 0 ⟨0, 0⟩)
  else unboundedLoop retryable op fuel 0 ⟨0, 0⟩

/-- Calling the decorator factory `retry(exc, tries)` (lines 38-88) on an operation:
the `tries < 0` check (lines 53-54) runs before the wrapper `new_f` is built, so a
negative `tries` raises `ValueError` without the operation ever being involved;
otherwise the wrapped runner is returned unexecuted. -/
def retryDecorate {α : Type} (retryable : PyExc → Bool) (tries : Int)
    (op : Nat → Except PyExc α) :
    Except PyExc (Nat → Option (Except PyExc α × RetryTrace)) :=
  if tries < 0 then
    Except.error (PyExc.valueError
      ("Expected positive `tries` values, received: " ++ toString tries))
  else Except.ok (fun fuel => retryExecute retryable tries.toNat op fuel)

/-- Calling `retry` the way the write-path decorations do (lines 252, 256, 260):
`retry(URLError, tries=3, delay=30.0)`.  The signature on line 38 is
`retry(exc, tries=3)` — there is no `delay` parameter — so Python raises `TypeError`
during keyword binding, before the `tries` check or any wrapping. -/
def retryDecorateCall (tries : Int) (passesDelayKw : Bool) : Except PyExc Unit :=
  if passesDelayKw then
    Except.error (PyExc.typeError "retry() got an unexpected keyword argument: delay")
  else if tries < 0 then
    Except.error (PyExc.valueError
      ("Expected positive `tries` values, received: " ++ toString tries))
  else Except.ok ()

/-- An operation that fails with a retryable `URLError` on its first invocation and
succeeds on every later one (the k = 1 instance of the spec's retry scenario). -/
def opFailThenSucceed : Nat → Except PyExc Nat := fun n =>
  if n == 0 then Except.error (PyExc.urlError "boom") else Except.ok 42

/-- An operation that fails with a retryable `URLError` on every invocation. -/
def opAlwaysFail : Nat → Except PyExc Nat := fun _ =>
  Except.error (PyExc.urlError "boom")

/-- An operation that raises an exception outside the retryable set of `_get`. -/
def opNonRetry : Nat → Except PyExc Nat := fun _ =>
  Except.error (PyExc.valueError "bad input")

/-- JSON values as produced by `response.json()`: the payloads the resource
operations normalize. -/
inductive JVal where
  | str (s : String)
  | num (n : Int)
  | bool (b : Bool)
  | null
  | arr (xs : List JVal)
  | obj (fields : List (String × JVal))

/-- A Python dictionary with string keys, as an association list (keys unique in any
dictionary Python builds; none of the operations below depends on uniqueness). -/
abbrev Dict := List (String × JVal)

/-- Python `field in data` on a dictionary. -/
def dictContains (d : Dict) (k : String) : Bool :=
  d.any (fun kv => kv.1 == k)

/-- Python `data.pop(field)`: the dictionary with that key removed. -/
def dictPop (d : Dict) (k : String) : Dict :=
  d.filter (fun kv => kv.1 != k)

/-- Python `data[k]` as a partial lookup: the value stored at the first matching
key, `none` modelling `KeyError`. -/
def dictLookup : Dict → String → Option JVal
  | [], _ => none
  | kv :: rest, k => if kv.1 == k then some kv.2 else dictLookup rest k

/-- Replace the value stored at key `k` (Python `data[k] = v` on an existing key);
every other pair of the dictionary is untouched. -/
def setKey (d : Dict) (k : String) (v : JVal) : Dict :=
  d.map (fun kv => if kv.1 == k then (kv.1, v) else kv)

/-- The field-stripping loop `for field in fields: if field in data: data.pop(field)`
shared by `get_ruleset` (lines 186-188), `get_ruleset_rules` (lines 209-211),
`get_rule` (lines 229-231) and `get_rule_tags` (lines 247-249). -/
def stripFields (fields : List String) (d : Dict) : Dict :=
  fields.foldl (fun acc fld => if dictContains acc fld then dictPop acc fld else acc) d

/-- The normalization `get_ruleset` applies to its response (lines 186-188):
strip `updatedAt` and `createdAt`. -/
def get_ruleset_normalize (d : Dict) : Dict :=
  stripFields ["updatedAt", "createdAt"] d

/-- The per-rule normalization of `get_ruleset_rules` (lines 209-211): strip
`rulesetId`, `updatedAt` and `createdAt` from one rule dictionary. -/
def normalizeRuleObj (r : Dict) : Dict :=
  stripFields ["rulesetId", "updatedAt", "createdAt"] r

/-- Normalization of one element of `data['rules']`.  The source indexes into the
element with `field in data['rules'][i]` and `data['rules'][i].pop(field)`, which is
meaningful for a dictionary element; a non-dictionary element has no `pop` and is
modelled as a failure. -/
def normalizeRuleEntry : JVal → Option JVal
  | JVal.obj fields => some (JVal.obj (normalizeRuleObj fields))
  | _ => none

/-- The loop `for i, rule in enumerate(data['rules'])` (lines 206-211): normalize
each element in place, failing if an element is not a dictionary. -/
def mapEntries : List JVal → Option (List JVal)
  | [] => some []
  | x :: xs =>
      match normalizeRuleEntry x, mapEntries xs with
      | some y, some ys => some (y :: ys)
      | _, _ => none

/-- The response processing of `get_ruleset_rules` (lines 203-213): look `rules` up
in the response (a missing key is Python `KeyError`, a non-list value cannot be
enumerated; both are `none`), normalize every entry, and store the result back under
`rules`, leaving the rest of the parent dictionary as it was. -/
def get_ruleset_rules_post (data : Dict) : Option Dict :=
  match dictLookup data "rules" with
  | some (JVal.arr rules) =>
      match mapEntries rules with
      | some rs => some (setKey data "rules" (JVal.arr rs))
      | none => none
  | _ => none

/-- An HTTP response as `API._get` observes it: status code, body text, reason
phrase, and the result of `response.json()` (`none` when the body is not valid
JSON, i.e. `json.JSONDecodeError` is raised). -/
structure HttpResponse where
  status_code : Int
  text : String
  reason : String
  json : Option JVal

/-- Outcome of the response classification in `API._get` (lines 150-157).  Line 154
of the source is `raise RateLimitedError(message=)`: the keyword argument has no
value, which is not syntactically valid Python (and the class's required
`error_code` argument is absent too), so the module fails to parse; reaching that
branch is modelled as `syntaxError`. -/
inductive GetOutcome where
  | ok (v : JVal)
  | syntaxError
  | raised (e : PyExc)

/-- The classification `API._get` performs on a response (lines 150-157): a JSON
body is returned; on parse failure, status 429 reaches the ill-formed `raise` on
line 154, and any other status raises `URLError` whose message holds the response
text if non-empty, else the reason phrase, plus the status code. -/
def get_classify (r : HttpResponse) : GetOutcome :=
  match r.json with
  | some v => GetOutcome.ok v
  | none =>
      if r.status_code == 429 then GetOutcome.syntaxError
      else GetOutcome.raised (PyExc.urlError
        ("Did not get valid JSON in response: "
          ++ (if r.text != "" then r.text else r.reason)
          ++ " ~ " ++ toString r.status_code))

/-- The `mohawk.Sender` value `_update_sender` constructs (lines 119-126), as far as
the claims need it: the target URL and method, plus the timestamp and nonce the
library draws from the environment at signing time. -/
structure SenderModel where
  url : String
  method : String
  ts : Nat
  nonce : String
deriving DecidableEq

/-- The mutable fields of an `API` instance that `_update_sender` assigns:
`self._sender` and `self._header` (initialised to `None` on lines 106-107). -/
structure APIState where
  _sender : Option SenderModel
  _header : Option String
deriving DecidableEq

/-- The request header the sender produces.  Modelled from the spec: the mohawk
library (an external collaborator, not part of this repository) embeds the
identity, timestamp, nonce, organization extension and a MAC in the header; the
claims below only need that the header is derived from the sender. -/
def request_header (s : SenderModel) : String :=
  "Hawk ts=" ++ toString s.ts ++ " nonce=" ++ s.nonce
    ++ " method=" ++ s.method ++ " url=" ++ s.url

/-- `API._update_sender` (lines 109-127): build a fresh `Sender` for the URL with
method GET, then assign it to `self._sender` and its header to `self._header`.
`ts` and `nonce` stand for the timestamp and nonce the signing library draws when
the call happens. -/
def _update_sender (st : APIState) (url : String) (ts : Nat) (nonce : String) :
    APIState :=
  let sender : SenderModel := ⟨url, "GET", ts, nonce⟩
  { st with _sender := some sender, _header := some (request_header sender) }

/-- The body shared by `API._put`, `API._delete` and `API._post` (lines 253-262): a
bare `...` expression, so a call that reached the body would evaluate `Ellipsis`
and return `None` — a silent success, not an error. -/
def writeStubBody : Except PyExc (Option JVal) := Except.ok none

/-- `paginate` (lines 265-270): unconditionally `raise NotImplementedError`. -/
def paginate : Except PyExc JVal := Except.error PyExc.notImplementedError

/-- Sample rule entry for the `get_ruleset_rules` witness: carries the
server-assigned fields next to POSTable ones. -/
def rule0 : Dict :=
  [("id", JVal.str "r1"), ("rulesetId", JVal.str "rs"),
   ("updatedAt", JVal.str "t1"), ("title", JVal.str "Rule one")]

/-- Sample `get_ruleset_rules` response: the parent keeps its own fields (including
a `rulesetId` of its own, untouched by the element-wise pass). -/
def rulesData0 : Dict :=
  [("rulesetId", JVal.str "rs"), ("name", JVal.str "Base"),
   ("rules", JVal.arr [JVal.obj rule0])]

/-- Sample ruleset response for the `get_ruleset` witness. -/
def ruleset0 : Dict :=
  [("id", JVal.str "rs"), ("name", JVal.str "Base"),
   ("updatedAt", JVal.str "t1"), ("createdAt", JVal.str "t0")]

theorem dictPop_of_not_contains (d : Dict) (k : String)
    (h : dictContains d k = false) : dictPop d k = d := by
  apply List.filter_eq_self.mpr
  intro kv hkv
  simp only [dictContains, List.any_eq_false] at h
  simpa [bne_iff_ne] using h kv hkv

theorem stripFields_eq_filter (fields : List String) :
    ∀ d : Dict, stripFields fields d
      = d.filter (fun kv => fields.all (fun fld => kv.1 != fld)) := by
  induction fields with
  | nil =>
      intro d
      simp [stripFields]
  | cons f fs ih =>
      intro d
      have hstep : (if dictContains d f then dictPop d f else d) = dictPop d f := by
        by_cases h : dictContains d f
        · simp [h]
        · simp [h, dictPop_of_not_contains d f (by simpa using h)]
      have h1 : stripFields (f :: fs) d = stripFields fs (dictPop d f) := by
        simp only [stripFields, List.foldl_cons, hstep]
      rw [h1, ih (dictPop d f), dictPop, List.filter_filter]
      simp [Bool.and_comm]

theorem mem_stripFields (fields : List String) (d : Dict) (kv : String × JVal) :
    kv ∈ stripFields fields d ↔ kv ∈ d ∧ ∀ fld ∈ fields, kv.1 ≠ fld := by
  rw [stripFields_eq_filter]
  simp [List.mem_filter, List.all_eq_true, bne_iff_ne]

theorem stripFields_not_contains (fields : List String) (d : Dict) (fld : String)
    (h : fld ∈ fields) : dictContains (stripFields fields d) fld = false := by
  rw [stripFields_eq_filter]
  simp only [dictContains]
  rw [List.any_eq_false]
  intro kv hkv
  rw [List.mem_filter] at hkv
  have hall := (List.all_eq_true.mp hkv.2) fld h
  simpa [bne_iff_ne] using hall

theorem stripFields_idem (fields : List String) (d : Dict) :
    stripFields fields (stripFields fields d) = stripFields fields d := by
  rw [stripFields_eq_filter, stripFields_eq_filter, List.filter_filter]
  simp

theorem mapEntries_objs (rules : List Dict) :
    mapEntries (rules.map JVal.obj)
      = some ((rules.map normalizeRuleObj).map JVal.obj) := by
  induction rules with
  | nil => rfl
  | cons r rs ih => simp [mapEntries, normalizeRuleEntry, ih]

theorem dictLookup_eq_none (d : Dict) (k : String)
    (h : dictContains d k = false) : dictLookup d k = none := by
  induction d with
  | nil => rfl
  | cons kv rest ih =>
      simp only [dictContains, List.any_cons, Bool.or_eq_false_iff] at h
      have ihr := ih h.2
      simp [dictLookup, h.1, ihr]

theorem dictLookup_setKey_ne (d : Dict) (k k2 : String) (v : JVal)
    (hne : k2 ≠ k) : dictLookup (setKey d k v) k2 = dictLookup d k2 := by
  induction d with
  | nil => rfl
  | cons kv rest ih =>
      simp only [setKey] at ih ⊢
      by_cases h : kv.1 == k
      · have hk : kv.1 = k := by simpa using h
        have h2 : (kv.1 == k2) = false := by
          rw [beq_eq_false_iff_ne, hk]
          exact fun hkk => hne hkk.symm
        simp only [dictLookup, List.map_cons, h, h2, if_true, if_false]
        simpa using ih
      · by_cases h2 : kv.1 == k2
        · simp [dictLookup, h, h2]
        · simp only [dictLookup, List.map_cons] at ih ⊢
          simp [h, h2]
          simpa using ih

theorem setKey_map_fst (d : Dict) (k : String) (v : JVal) :
    (setKey d k v).map Prod.fst = d.map Prod.fst := by
  induction d with
  | nil => rfl
  | cons kv rest ih =>
      simp only [setKey, List.map_cons] at ih ⊢
      rw [ih]
      congr 1
      by_cases h : kv.1 == k <;> simp [h]

/-- Claim C1 (refuted by the code): an operation that fails with a retryable
`URLError` on its first invocation and succeeds on the second, run with
`tries = 2`, does not return the success value after 2 invocations, and run with
`tries = 1` it does not raise `RetryLimitExceeded`: in both runs the first caught
exception reaches `sleep(delay)` (line 69), where the unbound name `delay` raises
`NameError` after exactly one invocation of the operation. -/
theorem retry_delay_nameError_on_first_retry :
    retryExecute isRetryableGet 2 opFailThenSucceed 10
      = some (Except.error (PyExc.nameError "delay"), ⟨1, 0⟩)
    ∧ retryExecute isRetryableGet 1 opFailThenSucceed 10
      = some (Except.error (PyExc.nameError "delay"), ⟨1, 0⟩) :=
  ⟨rfl, rfl⟩

/-- Claim C3 (refuted by the code): an operation failing with a retryable
`URLError` on every invocation, run with `tries = 3`, surfaces `NameError` from the
unbound `delay` after one invocation — not a `RetryLimitExceeded` carrying the last
cause and the attempt count (the `raise RetryLimitExceeded` on lines 77-79 is
unreachable, and its message interpolates `delay` and omits the cause anyway). -/
theorem retry_exhaustion_no_cause :
    retryExecute isRetryableGet 3 opAlwaysFail 10
      = some (Except.error (PyExc.nameError "delay"), ⟨1, 0⟩) :=
  rfl

/-- Claim C4: an operation whose first invocation raises an exception outside the
retryable set propagates that exception after exactly one invocation, whatever
`tries` is, and `sleep` is never performed. -/
theorem retry_nonretryable_propagates_once {α : Type} (retryable : PyExc → Bool)
    (tries : Nat) (op : Nat → Except PyExc α) (fuel : Nat) (e : PyExc)
    (hop : op 0 = Except.error e) (hretry : retryable e = false) (hfuel : 0 < fuel) :
    retryExecute retryable tries op fuel = some (Except.error e, ⟨1, 0⟩) := by
  cases tries with
  | zero =>
      cases fuel with
      | zero => exact absurd hfuel (by simp)
      | succ f => simp [retryExecute, unboundedLoop, callStep, hop, hretry]
  | succ k => simp [retryExecute, boundedLoop, callStep, hop, hretry]

theorem retry_nonretryable_propagates_once_witness :
    retryExecute isRetryableGet 3 opNonRetry 10
      = some (Except.error (PyExc.valueError "bad input"), ⟨1, 0⟩) :=
  retry_nonretryable_propagates_once isRetryableGet 3 opNonRetry 10
    (PyExc.valueError "bad input") rfl rfl (by decide)

/-- Claim C9: decorating an operation with a negative `tries` raises `ValueError`
independently of the operation (which is therefore never invoked), while `tries = 0`
and `tries > 0` both produce a wrapped runner. -/
theorem retry_negative_tries_valueError (retryable : PyExc → Bool) (tries : Int)
    (op op2 : Nat → Except PyExc Nat) :
    (tries < 0 →
      retryDecorate retryable tries op
        = Except.error (PyExc.valueError
            ("Expected positive `tries` values, received: " ++ toString tries))
      ∧ retryDecorate retryable tries op = retryDecorate retryable tries op2)
    ∧ (0 ≤ tries → ∃ run, retryDecorate retryable tries op = Except.ok run) := by
  constructor
  · intro hneg
    constructor
    · simp [retryDecorate, hneg]
    · simp [retryDecorate, hneg]
  · intro hpos
    have h : ¬ tries < 0 := not_lt.mpr hpos
    exact ⟨fun fuel => retryExecute retryable tries.toNat op fuel,
      by simp [retryDecorate, h]⟩

theorem retry_negative_tries_valueError_witness :
    retryDecorate isRetryableGet (-1) opAlwaysFail
      = Except.error (PyExc.valueError "Expected positive `tries` values, received: -1") :=
  (((retry_negative_tries_valueError isRetryableGet (-1) opAlwaysFail opNonRetry).1)
    (by decide)).1

/-- Claim C2 (refuted by the code): a response with status 429 and a non-JSON body
does not produce a `RateLimited` failure carrying code 429 — the branch that should
raise it, line 154 `raise RateLimitedError(message=)`, is ill-formed Python (the
keyword has no value and the mandatory `error_code` is missing), so the module does
not even parse; a status-500 response with a non-JSON body would raise the
`URLError` transport failure. -/
theorem get_classify_429_syntax_error :
    get_classify ⟨429, "slow down", "Too Many Requests", none⟩ = GetOutcome.syntaxError
    ∧ get_classify ⟨500, "oops", "Internal Server Error", none⟩
      = GetOutcome.raised
          (PyExc.urlError "Did not get valid JSON in response: oops ~ 500") :=
  ⟨rfl, rfl⟩

/-- Claim C5: the `get_ruleset` normalization removes exactly `updatedAt` and
`createdAt` (its result is the filter of the response on all other keys, and
contains neither key), preserves every other key-value pair, and is idempotent. -/
theorem get_ruleset_normalize_exact (d : Dict) :
    get_ruleset_normalize d
        = d.filter (fun kv => (kv.1 != "updatedAt") && (kv.1 != "createdAt"))
    ∧ dictContains (get_ruleset_normalize d) "updatedAt" = false
    ∧ dictContains (get_ruleset_normalize d) "createdAt" = false
    ∧ (∀ kv : String × JVal,
        kv ∈ get_ruleset_normalize d ↔ kv ∈ d ∧ kv.1 ≠ "updatedAt" ∧ kv.1 ≠ "createdAt")
    ∧ get_ruleset_normalize (get_ruleset_normalize d) = get_ruleset_normalize d := by
  refine ⟨?_, ?_, ?_, ?_, ?_⟩
  · rw [get_ruleset_normalize, stripFields_eq_filter]
    simp
  · exact stripFields_not_contains _ d _ (by simp)
  · exact stripFields_not_contains _ d _ (by simp)
  · intro kv
    rw [get_ruleset_normalize, mem_stripFields]
    simp
  · exact stripFields_idem _ d

theorem get_ruleset_normalize_exact_witness :
    get_ruleset_normalize (get_ruleset_normalize ruleset0) = get_ruleset_normalize ruleset0 :=
  (get_ruleset_normalize_exact ruleset0).2.2.2.2

/-- Claim C6: when the response maps `rules` to a list of rule dictionaries, the
`get_ruleset_rules` pass rewrites exactly that entry, normalizing every rule
element independently (none retains `rulesetId`, `updatedAt` or `createdAt`, every
other pair of each rule survives), while every other key of the parent keeps its
value and the parent's key sequence is unchanged. -/
theorem get_ruleset_rules_normalize_elementwise (data : Dict) (rules : List Dict)
    (h : dictLookup data "rules" = some (JVal.arr (rules.map JVal.obj))) :
    get_ruleset_rules_post data
        = some (setKey data "rules" (JVal.arr ((rules.map normalizeRuleObj).map JVal.obj)))
    ∧ (∀ r ∈ rules,
        dictContains (normalizeRuleObj r) "rulesetId" = false
        ∧ dictContains (normalizeRuleObj r) "updatedAt" = false
        ∧ dictContains (normalizeRuleObj r) "createdAt" = false)
    ∧ (∀ r ∈ rules, ∀ kv ∈ r,
        kv.1 ≠ "rulesetId" → kv.1 ≠ "updatedAt" → kv.1 ≠ "createdAt"
          → kv ∈ normalizeRuleObj r)
    ∧ (∀ k2 : String, k2 ≠ "rules" → ∀ v : JVal,
        dictLookup (setKey data "rules" v) k2 = dictLookup data k2)
    ∧ (∀ v : JVal, (setKey data "rules" v).map Prod.fst = data.map Prod.fst) := by
  refine ⟨?_, ?_, ?_, ?_, ?_⟩
  · simp [get_ruleset_rules_post, h, mapEntries_objs]
  · intro r _
    exact ⟨stripFields_not_contains _ r _ (by simp),
           stripFields_not_contains _ r _ (by simp),
           stripFields_not_contains _ r _ (by simp)⟩
  · intro r _ kv hkv h1 h2 h3
    refine (mem_stripFields _ r kv).mpr ⟨hkv, ?_⟩
    intro fld hfld
    have : fld = "rulesetId" ∨ fld = "updatedAt" ∨ fld = "createdAt" := by simpa using hfld
    rcases this with rfl | rfl | rfl
    · exact h1
    · exact h2
    · exact h3
  · intro k2 hk2 v
    exact dictLookup_setKey_ne data "rules" k2 v hk2
  · intro v
    exact setKey_map_fst data "rules" v

theorem get_ruleset_rules_normalize_elementwise_witness :
    get_ruleset_rules_post rulesData0
      = some (setKey rulesData0 "rules"
          (JVal.arr (([rule0].map normalizeRuleObj).map JVal.obj))) :=
  (get_ruleset_rules_normalize_elementwise rulesData0 [rule0] rfl).1

/-- Claim C7 (refuted by the code): the write stubs are not reachable operations
returning an `Unimplemented` failure — their decoration `retry(URLError, tries=3,
delay=30.0)` passes a keyword `retry` does not accept and raises `TypeError`, and
the stub bodies are bare `...`, which would return `None`, a silent success; only
`paginate` fails closed, with `NotImplementedError`. -/
theorem write_stubs_not_unimplemented :
    retryDecorateCall 3 true
      = Except.error (PyExc.typeError "retry() got an unexpected keyword argument: delay")
    ∧ writeStubBody = Except.ok none
    ∧ paginate = Except.error PyExc.notImplementedError :=
  ⟨rfl, rfl, rfl⟩

/-- Claim C8 (refuted by the code): after a signing call, the client's mutable
fields do retain the signer and the produced header — `_update_sender` assigns
`self._sender` and `self._header` (lines 119-127), so signer state persists between
independent signing calls. -/
theorem update_sender_persists_state :
    (_update_sender ⟨none, none⟩ "https://api.threatstack.com/v2/rulesets" 1700000000 "n0")._sender
      = some ⟨"https://api.threatstack.com/v2/rulesets", "GET", 1700000000, "n0"⟩
    ∧ (_update_sender ⟨none, none⟩ "https://api.threatstack.com/v2/rulesets" 1700000000 "n0")._header
      = some (request_header ⟨"https://api.threatstack.com/v2/rulesets", "GET", 1700000000, "n0"⟩) :=
  ⟨rfl, rfl⟩

/-- Claim C10: a `get_ruleset_rules` response without a `rules` key makes the pass
fail with a key-lookup error (`data['rules']` raises `KeyError`) instead of
returning a value. -/
theorem get_ruleset_rules_missing_key_fails (data : Dict)
    (h : dictContains data "rules" = false) :
    get_ruleset_rules_post data = none := by
  simp [get_ruleset_rules_post, dictLookup_eq_none data "rules" h]

theorem get_ruleset_rules_missing_key_fails_witness :
    get_ruleset_rules_post [("name", JVal.str "Base")] = none :=
  get_ruleset_rules_missing_key_fails [("name", JVal.str "Base")] rfl
